import Mathlib

/-!
# Shallow embedding of the D17B/D37C Minuteman emulator core

This file embeds the core CPU of `src/src/d17b.c` (with constants and the
state layout from `src/include/d17b.h`) into Lean 4 and proves properties
of the embedded definitions.

Modelling conventions:
* C `uint32_t` registers holding 24-bit words are modelled as `Nat`; every
  operation masks exactly where the C code masks.
* The fixed-size loop arrays `F[4]`, `E[8]`, `H[16]`, `V[4]`, `R[4]` and the
  `memory[47][128]` grid are modelled as total maps (`Nat → Nat`,
  `Nat → Nat → Nat`); the C code always indexes them with masked or
  range-checked indices, so the extra domain is never exercised.
* C `int32_t` / `int64_t` arithmetic is modelled on `Int`; arithmetic right
  shift of a (two's-complement) signed value is floor division `Int.fdiv`,
  and bitwise AND of a negative signed value with an all-ones low mask is
  `Int.emod` by the corresponding power of two.
* `uint64_t` increments wrap modulo `2 ^ 64`; `uint32_t` subtraction wraps
  modulo `2 ^ 32`.
-/

namespace D17BEmu

/-! ## Constants from `include/d17b.h` -/

def WORD_MASK : Nat := 0xFFFFFF

def SIGN_BIT : Nat := 0x800000

def MAGNITUDE_MASK : Nat := 0x7FFFFF

def CHANNELS : Nat := 47

def SECTORS : Nat := 128

def CHAN_F_LOOP : Nat := 0x2A

def CHAN_H_LOOP : Nat := 0x2C

def CHAN_E_LOOP : Nat := 0x2E

def CHAN_U_LOOP : Nat := 0x30

def CHAN_L_REG : Nat := 0x34

def CHAN_V_LOOP : Nat := 0x38

def CHAN_R_LOOP : Nat := 0x3A

/-! ## Instruction field extraction macros from `include/d17b.h` -/

def GET_OPCODE (w : Nat) : Nat := (w >>> 20) &&& 0x0F

def GET_FLAG (w : Nat) : Nat := (w >>> 19) &&& 0x01

def GET_SP (w : Nat) : Nat := (w >>> 15) &&& 0x0F

def GET_CHANNEL (w : Nat) : Nat := (w >>> 9) &&& 0x3F

def GET_SECTOR (w : Nat) : Nat := (w >>> 2) &&& 0x7F

def GET_FLAG_CODE (w : Nat) : Nat := w &&& 0x07

/-! ## CPU state (`d17b_cpu_t` from `include/d17b.h`) -/

structure D17B where
  A : Nat
  L : Nat
  N : Nat
  I : Nat
  P : Nat
  U : Nat
  F : Nat → Nat
  E : Nat → Nat
  H : Nat → Nat
  V : Nat → Nat
  R : Nat → Nat
  memory : Nat → Nat → Nat
  current_sector : Nat
  cycle_count : Nat
  halted : Bool
  error : Bool
  d37c_mode : Bool
  discrete_in_a : Nat
  discrete_in_b : Nat
  discrete_out_a : Nat
  voltage_out : Nat → Int
  binary_out : Nat → Nat
  detector : Bool
  fine_countdown : Nat
  countdown_enabled : Bool

/-- `d17b_reset` (d17b.c lines 21-57): clears registers, loops, disc
position, status, I/O, detector and countdown.  Note that the C function
does not touch `memory` and assigns `d37c_mode = true`. -/
def d17b_reset (cpu : D17B) : D17B :=
  { cpu with
    A := 0, L := 0, N := 0, I := 0, P := 0,
    U := 0, F := fun _ => 0, E := fun _ => 0, H := fun _ => 0,
    V := fun _ => 0, R := fun _ => 0,
    current_sector := 0, cycle_count := 0,
    halted := false, error := false, d37c_mode := true,
    discrete_in_a := 0, discrete_in_b := 0, discrete_out_a := 0,
    voltage_out := fun _ => 0, binary_out := fun _ => 0,
    detector := false, fine_countdown := 0, countdown_enabled := false }

/-! ## Memory access (`d17b_read` / `d17b_write`, d17b.c lines 63-134) -/

def d17b_read (cpu : D17B) (channel sector : Nat) : Nat :=
  if channel = CHAN_U_LOOP then cpu.U
  else if channel = CHAN_L_REG then cpu.L
  else if channel = CHAN_F_LOOP then cpu.F (sector &&& 0x03)
  else if channel = CHAN_E_LOOP then cpu.E (sector &&& 0x07)
  else if channel = CHAN_H_LOOP then cpu.H (sector &&& 0x0F)
  else if channel = CHAN_V_LOOP then cpu.V (sector &&& 0x03)
  else if channel = CHAN_R_LOOP then cpu.R (sector &&& 0x03)
  else if channel < CHANNELS ∧ sector < SECTORS then cpu.memory channel sector
  else 0

def d17b_write (cpu : D17B) (channel sector value0 : Nat) : D17B :=
  let value := value0 &&& WORD_MASK
  if channel = CHAN_U_LOOP then { cpu with U := value }
  else if channel = CHAN_L_REG then { cpu with L := value }
  else if channel = CHAN_F_LOOP then
    { cpu with F := Function.update cpu.F (sector &&& 0x03) value }
  else if channel = CHAN_E_LOOP then
    { cpu with E := Function.update cpu.E (sector &&& 0x07) value }
  else if channel = CHAN_H_LOOP then
    { cpu with H := Function.update cpu.H (sector &&& 0x0F) value }
  else if channel = CHAN_V_LOOP then
    { cpu with V := Function.update cpu.V (sector &&& 0x03) value }
  else if channel = CHAN_R_LOOP then
    { cpu with R := Function.update cpu.R (sector &&& 0x03) value }
  else if channel < CHANNELS ∧ sector < SECTORS then
    { cpu with memory := fun c s =>
        if c = channel ∧ s = sector then value else cpu.memory c s }
  else cpu

/-! ## Sign-magnitude arithmetic (d17b.c lines 147-267) -/

def to_signed (val : Nat) : Int :=
  if val &&& SIGN_BIT ≠ 0 then -((val &&& MAGNITUDE_MASK : Nat) : Int)
  else ((val &&& MAGNITUDE_MASK : Nat) : Int)

def from_signed (val : Int) : Nat :=
  if val < 0 then SIGN_BIT ||| ((-val).toNat &&& MAGNITUDE_MASK)
  else val.toNat &&& MAGNITUDE_MASK

def d17b_add_24bit (a b : Nat) : Nat :=
  let sa := to_signed a
  let sb := to_signed b
  let result := sa + sb
  let result :=
    if result > (MAGNITUDE_MASK : Int) then (MAGNITUDE_MASK : Int)
    else if result < -(MAGNITUDE_MASK : Int) then -(MAGNITUDE_MASK : Int)
    else result
  from_signed result

def d17b_sub_24bit (a b : Nat) : Nat :=
  let sa := to_signed a
  let sb := to_signed b
  let result := sa - sb
  let result :=
    if result > (MAGNITUDE_MASK : Int) then (MAGNITUDE_MASK : Int)
    else if result < -(MAGNITUDE_MASK : Int) then -(MAGNITUDE_MASK : Int)
    else result
  from_signed result

def d17b_complement (val : Nat) : Nat := val ^^^ SIGN_BIT

/-- Split-operand extraction inside `d17b_multiply` (d17b.c lines 203-208):
`a = (a >> 14) & 0x3FF; if (sign) a = -a;` on a two's-complement `int32_t`.
Arithmetic right shift is floor division; masking the low 10 bits of a
two's-complement value is `emod` by `1024`. -/
def smp_lane (signedVal : Int) (word : Nat) : Int :=
  let a := (Int.fdiv signedVal 16384) % 1024
  if word &&& SIGN_BIT ≠ 0 then -a else a

/-- `d17b_multiply` (d17b.c lines 195-222). -/
def d17b_multiply (cpu : D17B) (operand : Nat) (split : Bool) : D17B :=
  let a0 := to_signed cpu.A
  let b0 := to_signed operand
  let a := if split then smp_lane a0 cpu.A else a0
  let b := if split then smp_lane b0 operand else b0
  let product := a * b
  if product < 0 then
    let product := -product
    { cpu with
      A := SIGN_BIT ||| ((product.toNat >>> 23) &&& MAGNITUDE_MASK),
      L := product.toNat &&& MAGNITUDE_MASK }
  else
    { cpu with
      A := (product.toNat >>> 23) &&& MAGNITUDE_MASK,
      L := product.toNat &&& MAGNITUDE_MASK }

/-- `d17b_divide` (d17b.c lines 224-267). -/
def d17b_divide (cpu : D17B) (divisor : Nat) : D17B :=
  if divisor &&& MAGNITUDE_MASK = 0 then
    { cpu with error := true }
  else
    let dividend_neg : Bool := cpu.A &&& SIGN_BIT != 0
    let divisor_neg : Bool := divisor &&& SIGN_BIT != 0
    let quotient_neg : Bool := dividend_neg != divisor_neg
    let dividend : Nat := ((cpu.A &&& MAGNITUDE_MASK) <<< 23) ||| (cpu.L &&& MAGNITUDE_MASK)
    let div_mag : Nat := divisor &&& MAGNITUDE_MASK
    let quotient := dividend / div_mag
    let remainder := dividend % div_mag
    let error' := if quotient > MAGNITUDE_MASK then true else cpu.error
    let quotient := if quotient > MAGNITUDE_MASK then MAGNITUDE_MASK else quotient
    let a1 := quotient &&& MAGNITUDE_MASK
    let a2 := if quotient_neg && quotient != 0 then a1 ||| SIGN_BIT else a1
    let l1 := remainder &&& MAGNITUDE_MASK
    let l2 := if dividend_neg && remainder != 0 then l1 ||| SIGN_BIT else l1
    { cpu with A := a2, L := l2, error := error' }

/-! ## Flag store (`d17b_flag_store`, d17b.c lines 287-325) -/

def d17b_flag_store (cpu : D17B) (flag_code operand_sector : Nat) : D17B :=
  let value := cpu.A
  if flag_code = 0x00 then cpu
  else if flag_code = 0x02 then
    { cpu with F := Function.update cpu.F (operand_sector &&& 0x03) value }
  else if flag_code = 0x04 then cpu
  else if flag_code = 0x06 then
    d17b_write cpu 0x28 ((operand_sector + 4294967294) % 4294967296 &&& 0x7F) value
  else if flag_code = 0x08 then
    { cpu with E := Function.update cpu.E (operand_sector &&& 0x07) value }
  else if flag_code = 0x0A then
    { cpu with L := value }
  else if flag_code = 0x0C then
    { cpu with H := Function.update cpu.H (operand_sector &&& 0x0F) value }
  else if flag_code = 0x0E then
    { cpu with U := value }
  else cpu

/-! ## Arithmetic executor (`d17b_exec_arithmetic`, d17b.c lines 331-406) -/

/-- `uint32_t` subtraction, wrapping modulo `2 ^ 32` (operands below `2 ^ 32`). -/
def usub32 (x y : Nat) : Nat := (x + 4294967296 - y) % 4294967296

def d17b_exec_arithmetic (cpu : D17B) (instr : Nat) : D17B :=
  let opcode := GET_OPCODE instr
  let channel := GET_CHANNEL instr
  let sector := GET_SECTOR instr
  let operand := d17b_read cpu channel sector
  let cpu :=
    if GET_FLAG instr ≠ 0 then d17b_flag_store cpu (GET_FLAG_CODE instr) sector
    else cpu
  if opcode = 0x9 then { cpu with A := operand }
  else if opcode = 0xD then { cpu with A := d17b_add_24bit cpu.A operand }
  else if opcode = 0xF then { cpu with A := d17b_sub_24bit cpu.A operand }
  else if opcode = 0xC then
    let a_hi := (cpu.A >>> 12) &&& 0xFFF
    let a_lo := cpu.A &&& 0xFFF
    let o_hi := (operand >>> 12) &&& 0xFFF
    let o_lo := operand &&& 0xFFF
    { cpu with A := (((a_hi + o_hi) <<< 12) ||| ((a_lo + o_lo) &&& 0xFFF)) &&& WORD_MASK }
  else if opcode = 0xE then
    let a_hi := (cpu.A >>> 12) &&& 0xFFF
    let a_lo := cpu.A &&& 0xFFF
    let o_hi := (operand >>> 12) &&& 0xFFF
    let o_lo := operand &&& 0xFFF
    { cpu with A := (((usub32 a_hi o_hi <<< 12) % 4294967296) ||| (usub32 a_lo o_lo &&& 0xFFF)) &&& WORD_MASK }
  else if opcode = 0x5 then d17b_multiply cpu operand false
  else if opcode = 0x4 then d17b_multiply cpu operand true
  else if opcode = 0x7 then
    if cpu.d37c_mode then d17b_divide cpu operand
    else
      let abs_a := cpu.A &&& MAGNITUDE_MASK
      let abs_op := operand &&& MAGNITUDE_MASK
      d17b_multiply { cpu with A := abs_a } abs_op false
  else if opcode = 0xB then d17b_write cpu channel sector cpu.A
  else cpu

/-! ## Shift executor (`d17b_exec_shift`, d17b.c lines 408-495) -/

def d17b_exec_shift (cpu : D17B) (instr : Nat) : D17B :=
  let sector := GET_SECTOR instr
  let sub_op := (sector >>> 3) &&& 0x1F
  let shift_count0 := sector &&& 0x07
  let shift_count := if shift_count0 = 0 then 8 else shift_count0
  if sub_op = 0x08 then
    let hi := (cpu.A >>> 12) &&& 0xFFF
    let lo := cpu.A &&& 0xFFF
    let hi := (hi <<< shift_count) &&& 0xFFF
    let lo := (lo <<< shift_count) &&& 0xFFF
    { cpu with A := (hi <<< 12) ||| lo }
  else if sub_op = 0x09 then
    { cpu with A := (cpu.A <<< shift_count) &&& WORD_MASK }
  else if sub_op = 0x0A then
    let hi := (cpu.A >>> 12) &&& 0xFFF
    let hi := (hi <<< shift_count) &&& 0xFFF
    { cpu with A := (hi <<< 12) ||| (cpu.A &&& 0xFFF) }
  else if sub_op = 0x0B then
    if cpu.d37c_mode then
      let val := cpu.A &&& WORD_MASK
      { cpu with A := ((val <<< shift_count) ||| (val >>> (24 - shift_count))) &&& WORD_MASK }
    else
      let lo := cpu.A &&& 0xFFF
      let lo := (lo <<< shift_count) &&& 0xFFF
      { cpu with A := (cpu.A &&& 0xFFF000) ||| lo }
  else if sub_op = 0x0C then
    let hi := (cpu.A >>> 12) &&& 0xFFF
    let lo := cpu.A &&& 0xFFF
    let hi := hi >>> shift_count
    let lo := lo >>> shift_count
    { cpu with A := (hi <<< 12) ||| lo }
  else if sub_op = 0x0D then
    { cpu with A := cpu.A >>> shift_count }
  else if sub_op = 0x0E then
    let hi := (cpu.A >>> 12) &&& 0xFFF
    let hi := hi >>> shift_count
    { cpu with A := (hi <<< 12) ||| (cpu.A &&& 0xFFF) }
  else if sub_op = 0x0F then
    if cpu.d37c_mode then
      let val := cpu.A &&& WORD_MASK
      { cpu with A := ((val >>> shift_count) ||| (val <<< (24 - shift_count))) &&& WORD_MASK }
    else
      let lo := cpu.A &&& 0xFFF
      let lo := lo >>> shift_count
      { cpu with A := (cpu.A &&& 0xFFF000) ||| lo }
  else cpu

/-! ## Control executor (`d17b_exec_control`, d17b.c lines 497-536) -/

/-- `(int16_t)` sign extension of a 12-bit lane, as done by
`if (x & 0x800) x |= 0xF000;` on a two's-complement `int16_t`. -/
def sext12 (x : Nat) : Int :=
  if x &&& 0x800 ≠ 0 then (x : Int) - 4096 else (x : Int)

/-- Bitwise AND of a two's-complement signed value with `0xFFF`:
the low 12 bits, i.e. `emod` by `4096`. -/
def imask12 (x : Int) : Nat := (x % 4096).toNat

def d17b_exec_control (cpu : D17B) (instr : Nat) : D17B :=
  let opcode := GET_OPCODE instr
  let channel := GET_CHANNEL instr
  let sector := GET_SECTOR instr
  if opcode = 0x1 then
    let operand := d17b_read cpu channel sector
    let a_hi := sext12 ((cpu.A >>> 12) &&& 0xFFF)
    let a_lo := sext12 (cpu.A &&& 0xFFF)
    let o_hi := sext12 ((operand >>> 12) &&& 0xFFF)
    let o_lo := sext12 (operand &&& 0xFFF)
    let a_hi := if a_hi > o_hi then o_hi else a_hi
    let a_hi := if a_hi < -o_hi then -o_hi else a_hi
    let a_lo := if a_lo > o_lo then o_lo else a_lo
    let a_lo := if a_lo < -o_lo then -o_lo else a_lo
    { cpu with A := (imask12 a_hi <<< 12) ||| imask12 a_lo }
  else cpu

/-! ## Special executor (`d17b_exec_special`, d17b.c lines 538-622) -/

/-- `(int16_t)` conversion of an `int32_t` value (two's-complement wrap). -/
def toInt16 (v : Int) : Int := (v + 32768) % 65536 - 32768

def d17b_exec_special (cpu : D17B) (instr : Nat) : D17B :=
  let sector := GET_SECTOR instr
  let sub_op := (sector >>> 1) &&& 0x3F
  if sub_op = 0x10 then
    if cpu.d37c_mode then { cpu with A := cpu.A ||| cpu.L } else cpu
  else if sub_op = 0x11 then { cpu with A := cpu.A &&& cpu.L }
  else if sub_op = 0x12 then { cpu with A := SIGN_BIT ||| (cpu.A &&& MAGNITUDE_MASK) }
  else if sub_op = 0x13 then { cpu with A := d17b_complement cpu.A }
  else if sub_op = 0x09 then { cpu with halted := true }
  else if sub_op = 0x08 then { cpu with detector := false }
  else if sub_op = 0x19 then { cpu with countdown_enabled := true }
  else if sub_op = 0x18 then { cpu with countdown_enabled := false }
  else if sub_op = 0x1E ∨ sub_op = 0x1F then { cpu with P := sector &&& 0x07 }
  else if sub_op = 0x15 then { cpu with A := cpu.discrete_in_a }
  else if sub_op = 0x14 then { cpu with A := cpu.discrete_in_b }
  else if sub_op = 0x0B then { cpu with discrete_out_a := cpu.A }
  else if sub_op = 0x0C then
    { cpu with voltage_out := Function.update cpu.voltage_out 0 (toInt16 (to_signed (cpu.A >>> 15))) }
  else if sub_op = 0x0D then
    { cpu with voltage_out := Function.update cpu.voltage_out 1 (toInt16 (to_signed (cpu.A >>> 15))) }
  else if sub_op = 0x0E then
    { cpu with voltage_out := Function.update cpu.voltage_out 2 (toInt16 (to_signed (cpu.A >>> 15))) }
  else if sub_op = 0x04 then
    { cpu with binary_out := Function.update cpu.binary_out 0 ((cpu.A >>> 22) &&& 0x03) }
  else if sub_op = 0x05 then
    { cpu with binary_out := Function.update cpu.binary_out 1 ((cpu.A >>> 22) &&& 0x03) }
  else if sub_op = 0x01 then
    { cpu with binary_out := Function.update cpu.binary_out 2 ((cpu.A >>> 22) &&& 0x03) }
  else cpu

/-! ## Fetch-step driver (`d17b_step`, d17b.c lines 628-720) -/

def d17b_step (cpu : D17B) : D17B :=
  if cpu.halted then cpu
  else
    let channel := (cpu.I >>> 9) &&& 0x3F
    let sector := (cpu.I >>> 2) &&& 0x7F
    let instr := d17b_read cpu channel sector
    let opcode := GET_OPCODE instr
    let next_sp := GET_SP instr
    let dispatched : D17B × Bool :=
      if opcode = 0x0 then (d17b_exec_shift cpu instr, false)
      else if opcode = 0x8 then (d17b_exec_special cpu instr, false)
      else if opcode = 0xA then
        ({ cpu with I := (GET_CHANNEL instr <<< 9) ||| (GET_SECTOR instr <<< 2) }, true)
      else if opcode = 0x2 then
        if cpu.d37c_mode then
          if cpu.A &&& MAGNITUDE_MASK = 0 then
            ({ cpu with I := (GET_CHANNEL instr <<< 9) ||| (GET_SECTOR instr <<< 2) }, true)
          else (cpu, false)
        else
          if cpu.A &&& SIGN_BIT ≠ 0 then
            ({ cpu with I := (GET_CHANNEL instr <<< 9) ||| (GET_SECTOR instr <<< 2) }, true)
          else (cpu, false)
      else if opcode = 0x6 then
        if cpu.A &&& SIGN_BIT ≠ 0 then
          ({ cpu with I := (GET_CHANNEL instr <<< 9) ||| (GET_SECTOR instr <<< 2) }, true)
        else (cpu, false)
      else if opcode = 0x1 then (d17b_exec_control cpu instr, false)
      else (d17b_exec_arithmetic cpu instr, false)
    let cpu1 := dispatched.1
    let cpu2 :=
      if dispatched.2 then cpu1
      else { cpu1 with I := (channel <<< 9) ||| (next_sp <<< 2) }
    let cpu3 :=
      { cpu2 with
        current_sector := (cpu2.current_sector + 1) &&& 0x7F,
        cycle_count := (cpu2.cycle_count + 1) % 18446744073709551616 }
    if cpu3.countdown_enabled ∧ 0 < cpu3.fine_countdown then
      { cpu3 with fine_countdown := cpu3.fine_countdown - 1 }
    else cpu3

/-- `d17b_run` (d17b.c lines 722-732).  The C loop
`while (!halted && cycle_count - start < max_cycles) { if (step < 0) break; }`
is translated by fuel recursion on the remaining budget: every non-halted
step increments `cycle_count` by exactly one, so `cycle_count - start`
counts iterations; the `break` fires only when `d17b_step` returns `-1`,
i.e. only when `halted` held at entry, which the loop guard has already
excluded, so it is unreachable. -/
def d17b_run (cpu : D17B) (max_cycles : Nat) : D17B :=
  match max_cycles with
  | 0 => cpu
  | m + 1 =>
    if cpu.halted then cpu
    else d17b_run (d17b_step cpu) m

/-! ## Concrete states for witnesses and counterexamples -/

/-- The all-zero CPU state (every register, loop, memory cell and latch
cleared, `d37c_mode` true as after `d17b_init`). -/
def zeroState : D17B :=
  { A := 0, L := 0, N := 0, I := 0, P := 0, U := 0,
    F := fun _ => 0, E := fun _ => 0, H := fun _ => 0,
    V := fun _ => 0, R := fun _ => 0,
    memory := fun _ _ => 0,
    current_sector := 0, cycle_count := 0,
    halted := false, error := false, d37c_mode := true,
    discrete_in_a := 0, discrete_in_b := 0, discrete_out_a := 0,
    voltage_out := fun _ => 0, binary_out := fun _ => 0,
    detector := false, fine_countdown := 0, countdown_enabled := false }

end D17BEmu

namespace D17BEmu

/-! ## Helper lemmas about the bit-level encoding -/

theorem and_magnitude_eq_mod (x : Nat) : x &&& MAGNITUDE_MASK = x % 8388608 := by
  have h := Nat.and_pow_two_sub_one_eq_mod x 23
  norm_num at h
  simpa [MAGNITUDE_MASK] using h

theorem and_magnitude_of_lt {x : Nat} (h : x < 8388608) : x &&& MAGNITUDE_MASK = x := by
  rw [and_magnitude_eq_mod, Nat.mod_eq_of_lt h]

theorem shiftLeft_or_eq_add {x y n : Nat} (h : y < 2 ^ n) :
    (x <<< n) ||| y = x * 2 ^ n + y := by
  rw [Nat.shiftLeft_eq, Nat.mul_comm x (2 ^ n), ← Nat.mul_add_lt_is_or h x,
    Nat.mul_comm (2 ^ n) x]

theorem sign_or_eq_add {m : Nat} (h : m < 8388608) : SIGN_BIT ||| m = 8388608 + m := by
  have h' : m < 2 ^ 23 := by norm_num at h ⊢; exact h
  have := shiftLeft_or_eq_add (x := 1) (n := 23) h'
  norm_num at this
  simpa [SIGN_BIT] using this

theorem or_sign_eq_add {m : Nat} (h : m < 8388608) : m ||| SIGN_BIT = 8388608 + m := by
  rw [Nat.lor_comm, sign_or_eq_add h]

theorem and_sign_of_lt {x : Nat} (h : x < 8388608) : x &&& SIGN_BIT = 0 := by
  have h' : x < 2 ^ 23 := by norm_num at h ⊢; exact h
  have ht : x.testBit 23 = false := Nat.testBit_lt_two_pow h'
  have := Nat.and_two_pow x 23
  rw [ht] at this
  simpa [SIGN_BIT] using this

theorem add_sign_and_sign {m : Nat} (h : m < 8388608) :
    (8388608 + m) &&& SIGN_BIT ≠ 0 := by
  have h' : m < 2 ^ 23 := by norm_num at h ⊢; exact h
  have ht : (8388608 + m).testBit 23 = true := by
    have := Nat.testBit_mul_pow_two_add 1 h' 23
    norm_num at this
    simpa [Nat.add_comm m 8388608] using this
  have h2 := Nat.and_two_pow (8388608 + m) 23
  rw [ht] at h2
  norm_num at h2
  simp [SIGN_BIT, h2]

theorem add_sign_and_magnitude {m : Nat} (h : m < 8388608) :
    (8388608 + m) &&& MAGNITUDE_MASK = m := by
  rw [and_magnitude_eq_mod, Nat.add_mod_left, Nat.mod_eq_of_lt h]

theorem to_signed_from_signed {r : Int} (h1 : -8388607 ≤ r) (h2 : r ≤ 8388607) :
    to_signed (from_signed r) = r := by
  by_cases hr : r < 0
  · have hm : (-r).toNat ≤ 8388607 := by omega
    have hm' : (-r).toNat < 8388608 := by omega
    rw [from_signed, if_pos hr, and_magnitude_of_lt hm', sign_or_eq_add hm',
      to_signed, if_pos (add_sign_and_sign hm'), add_sign_and_magnitude hm']
    omega
  · have hm : r.toNat < 8388608 := by omega
    rw [from_signed, if_neg hr, and_magnitude_of_lt hm, to_signed,
      if_neg (by simpa using and_sign_of_lt hm), and_magnitude_of_lt hm]
    omega

theorem to_signed_bounds (v : Nat) :
    -8388607 ≤ to_signed v ∧ to_signed v ≤ 8388607 := by
  have h : v &&& MAGNITUDE_MASK ≤ 8388607 := Nat.and_le_right
  rw [to_signed]
  split <;> omega

/-- C8: for all 24-bit words `a` and `b`, the signed sign-magnitude
interpretation of `d17b_add_24bit a b` and of `d17b_sub_24bit a b` lies in
`[-(2^23-1), 2^23-1]`; out-of-range sums and differences are clamped to
the nearest bound (never wrapped). -/
theorem C8_addsub_saturate (a b : Nat) :
    (-8388607 ≤ to_signed (d17b_add_24bit a b) ∧
      to_signed (d17b_add_24bit a b) ≤ 8388607) ∧
    (-8388607 ≤ to_signed (d17b_sub_24bit a b) ∧
      to_signed (d17b_sub_24bit a b) ≤ 8388607) ∧
    to_signed (d17b_add_24bit a b) =
      max (-8388607) (min 8388607 (to_signed a + to_signed b)) ∧
    to_signed (d17b_sub_24bit a b) =
      max (-8388607) (min 8388607 (to_signed a - to_signed b)) := by
  have key : ∀ r : Int,
      to_signed (from_signed
        (if r > (MAGNITUDE_MASK : Int) then (MAGNITUDE_MASK : Int)
         else if r < -(MAGNITUDE_MASK : Int) then -(MAGNITUDE_MASK : Int) else r)) =
      max (-8388607) (min 8388607 r) := by
    intro r
    have hmask : ((MAGNITUDE_MASK : Nat) : Int) = 8388607 := by norm_num [MAGNITUDE_MASK]
    rw [hmask]
    split
    · rw [to_signed_from_signed (by omega) (by omega)]; omega
    · split
      · rw [to_signed_from_signed (by omega) (by omega)]; omega
      · rw [to_signed_from_signed (by omega) (by omega)]; omega
  have hadd : to_signed (d17b_add_24bit a b) =
      max (-8388607) (min 8388607 (to_signed a + to_signed b)) := by
    rw [d17b_add_24bit]; exact key _
  have hsub : to_signed (d17b_sub_24bit a b) =
      max (-8388607) (min 8388607 (to_signed a - to_signed b)) := by
    rw [d17b_sub_24bit]; exact key _
  refine ⟨?_, ?_, hadd, hsub⟩ <;> constructor <;> [rw [hadd]; rw [hadd]; rw [hsub]; rw [hsub]] <;> omega

end D17BEmu

namespace D17BEmu

/-! ## C1: reset -/

def C1state : D17B :=
  { zeroState with
    d37c_mode := false,
    memory := fun c s => if c = 0 ∧ s = 0 then 1 else 0 }

/-- C1 counterexample: from a state in D17B mode with a nonzero word in main
memory, `d17b_reset` forces `d37c_mode` to `true` (it does not keep the
pre-reset value) and leaves the main disc memory word untouched (it does not
zero it). -/
theorem C1_counterexample :
    C1state.d37c_mode = false ∧ (d17b_reset C1state).d37c_mode = true ∧
    (d17b_reset C1state).memory 0 0 = 1 := ⟨rfl, rfl, rfl⟩

/-- C1 (amended): `d17b_reset` zeros the registers A/L/N/I/P, every
rapid-access loop, the disc position, the cycle counter, the I/O latches,
the detector, the countdown state, and the halted and error latches; it
leaves the main disc memory unchanged and forces `d37c_mode` to `true`
regardless of its pre-reset value. -/
theorem C1_reset_amended (s : D17B) :
    (d17b_reset s).A = 0 ∧ (d17b_reset s).L = 0 ∧ (d17b_reset s).N = 0 ∧
    (d17b_reset s).I = 0 ∧ (d17b_reset s).P = 0 ∧ (d17b_reset s).U = 0 ∧
    (d17b_reset s).F = (fun _ => 0) ∧ (d17b_reset s).E = (fun _ => 0) ∧
    (d17b_reset s).H = (fun _ => 0) ∧ (d17b_reset s).V = (fun _ => 0) ∧
    (d17b_reset s).R = (fun _ => 0) ∧
    (d17b_reset s).memory = s.memory ∧
    (d17b_reset s).current_sector = 0 ∧ (d17b_reset s).cycle_count = 0 ∧
    (d17b_reset s).halted = false ∧ (d17b_reset s).error = false ∧
    (d17b_reset s).d37c_mode = true ∧
    (d17b_reset s).discrete_in_a = 0 ∧ (d17b_reset s).discrete_in_b = 0 ∧
    (d17b_reset s).discrete_out_a = 0 ∧
    (d17b_reset s).voltage_out = (fun _ => 0) ∧
    (d17b_reset s).binary_out = (fun _ => 0) ∧
    (d17b_reset s).detector = false ∧ (d17b_reset s).fine_countdown = 0 ∧
    (d17b_reset s).countdown_enabled = false :=
  ⟨rfl, rfl, rfl, rfl, rfl, rfl, rfl, rfl, rfl, rfl, rfl, rfl, rfl, rfl, rfl,
    rfl, rfl, rfl, rfl, rfl, rfl, rfl, rfl, rfl, rfl⟩

/-! ## C9: divide-by-zero-magnitude frame condition -/

/-- C9: when the divisor's magnitude bits are all zero (whatever its sign
bit), `d17b_divide` sets the error latch and leaves every other state field
unchanged, A and L included. -/
theorem C9_divide_zero_frame (s : D17B) (d : Nat) (h : d &&& MAGNITUDE_MASK = 0) :
    (d17b_divide s d).error = true ∧
    (d17b_divide s d).A = s.A ∧ (d17b_divide s d).L = s.L ∧
    (d17b_divide s d).N = s.N ∧ (d17b_divide s d).I = s.I ∧
    (d17b_divide s d).P = s.P ∧ (d17b_divide s d).U = s.U ∧
    (d17b_divide s d).F = s.F ∧ (d17b_divide s d).E = s.E ∧
    (d17b_divide s d).H = s.H ∧ (d17b_divide s d).V = s.V ∧
    (d17b_divide s d).R = s.R ∧ (d17b_divide s d).memory = s.memory ∧
    (d17b_divide s d).current_sector = s.current_sector ∧
    (d17b_divide s d).cycle_count = s.cycle_count ∧
    (d17b_divide s d).halted = s.halted ∧
    (d17b_divide s d).d37c_mode = s.d37c_mode ∧
    (d17b_divide s d).discrete_in_a = s.discrete_in_a ∧
    (d17b_divide s d).discrete_in_b = s.discrete_in_b ∧
    (d17b_divide s d).discrete_out_a = s.discrete_out_a ∧
    (d17b_divide s d).voltage_out = s.voltage_out ∧
    (d17b_divide s d).binary_out = s.binary_out ∧
    (d17b_divide s d).detector = s.detector ∧
    (d17b_divide s d).fine_countdown = s.fine_countdown ∧
    (d17b_divide s d).countdown_enabled = s.countdown_enabled := by
  simp [d17b_divide, h]

def C9state : D17B := { zeroState with A := 7, L := 9 }

/-- C9 witness: dividing by `0x800000` (sign bit set, magnitude zero) from
A = 7, L = 9 latches the error and leaves A and L at their pre-call
values. -/
theorem C9_divide_zero_frame_witness :
    (d17b_divide C9state 8388608).error = true ∧
    (d17b_divide C9state 8388608).A = 7 ∧
    (d17b_divide C9state 8388608).L = 9 := by
  have h := C9_divide_zero_frame C9state 8388608 (by decide)
  exact ⟨h.1, h.2.1.trans rfl, h.2.2.1.trans rfl⟩

/-! ## C6: division consistency when no error -/

/-- C6: whenever `d17b_divide` completes without the error latch (divisor
magnitude nonzero and quotient magnitude at most `2^23 - 1`), the magnitude
fields satisfy `|A_pre| * 2^23 + |L_pre| = |A_post| * |divisor| + |L_post|`
and `|L_post| < |divisor|`. -/
theorem C6_divide_consistency (s : D17B) (divisor : Nat)
    (hnz : divisor &&& MAGNITUDE_MASK ≠ 0)
    (hq : (((s.A &&& MAGNITUDE_MASK) <<< 23) ||| (s.L &&& MAGNITUDE_MASK)) /
        (divisor &&& MAGNITUDE_MASK) ≤ MAGNITUDE_MASK) :
    (s.A &&& MAGNITUDE_MASK) * 8388608 + (s.L &&& MAGNITUDE_MASK) =
      ((d17b_divide s divisor).A &&& MAGNITUDE_MASK) * (divisor &&& MAGNITUDE_MASK) +
        ((d17b_divide s divisor).L &&& MAGNITUDE_MASK) ∧
    ((d17b_divide s divisor).L &&& MAGNITUDE_MASK) < divisor &&& MAGNITUDE_MASK := by
  have hlM : s.L &&& MAGNITUDE_MASK < 8388608 :=
    Nat.lt_of_le_of_lt Nat.and_le_right (by norm_num [MAGNITUDE_MASK])
  have hlM' : s.L &&& MAGNITUDE_MASK < 2 ^ 23 := by norm_num at hlM ⊢; exact hlM
  have hdividend :
      ((s.A &&& MAGNITUDE_MASK) <<< 23) ||| (s.L &&& MAGNITUDE_MASK) =
      (s.A &&& MAGNITUDE_MASK) * 8388608 + (s.L &&& MAGNITUDE_MASK) := by
    rw [shiftLeft_or_eq_add hlM']; norm_num
  set dM := divisor &&& MAGNITUDE_MASK with hdM
  set dividend := ((s.A &&& MAGNITUDE_MASK) <<< 23) ||| (s.L &&& MAGNITUDE_MASK) with hdvd
  have hdpos : 0 < dM := Nat.pos_of_ne_zero hnz
  have hqM : dividend / dM ≤ MAGNITUDE_MASK := hq
  have hqlt : ¬ dividend / dM > MAGNITUDE_MASK := by omega
  have hrlt : dividend % dM < dM := Nat.mod_lt _ hdpos
  have hq8 : dividend / dM < 8388608 := by
    have : (MAGNITUDE_MASK : Nat) = 8388607 := rfl
    omega
  have hr8 : dividend % dM < 8388608 := by
    have : dM ≤ 8388607 := Nat.and_le_right
    omega
  have hAmag : (d17b_divide s divisor).A &&& MAGNITUDE_MASK = dividend / dM := by
    simp only [d17b_divide, if_neg hnz, ← hdvd, ← hdM, if_neg hqlt]
    split
    · rw [and_magnitude_of_lt hq8, or_sign_eq_add hq8, add_sign_and_magnitude hq8]
    · rw [and_magnitude_of_lt hq8, and_magnitude_of_lt hq8]
  have hLmag : (d17b_divide s divisor).L &&& MAGNITUDE_MASK = dividend % dM := by
    simp only [d17b_divide, if_neg hnz, ← hdvd, ← hdM, if_neg hqlt]
    split
    · rw [and_magnitude_of_lt hr8, or_sign_eq_add hr8, add_sign_and_magnitude hr8]
    · rw [and_magnitude_of_lt hr8, and_magnitude_of_lt hr8]
  refine ⟨?_, ?_⟩
  · rw [hAmag, hLmag, ← hdividend, Nat.mul_comm, Nat.div_add_mod]
  · rw [hLmag]; exact hrlt

def C6state : D17B := { zeroState with L := 24 }

/-- C6 witness: dividing A:L = 0:24 by 4 gives quotient 6, remainder 0, and
the consistency equation holds concretely. -/
theorem C6_divide_consistency_witness :
    (C6state.A &&& MAGNITUDE_MASK) * 8388608 + (C6state.L &&& MAGNITUDE_MASK) =
      ((d17b_divide C6state 4).A &&& MAGNITUDE_MASK) * (4 &&& MAGNITUDE_MASK) +
        ((d17b_divide C6state 4).L &&& MAGNITUDE_MASK) ∧
    ((d17b_divide C6state 4).L &&& MAGNITUDE_MASK) < 4 &&& MAGNITUDE_MASK :=
  C6_divide_consistency C6state 4 (by decide) (by decide)

end D17BEmu

namespace D17BEmu

/-! ## C2: flag-store with S & 7 = 5 does not reach the L register -/

def C2state : D17B :=
  { zeroState with memory := fun c s => if c = 0 ∧ s = 5 then 5 else 0 }

/-- C2: executing the ADD instruction `0xD80014` (opcode 13, F = 1,
channel 0, sector 5, so `S & 7 = 5`) from A = 0, L = 0 with operand 5
leaves A = 5 but L = 0: the flag-store does not copy the post-ADD A into L.
The executor passes `GET_FLAG_CODE(instr) = instr & 7 = 4` (the low three
bits of the word, not `S & 7 = 5`) to `d17b_flag_store`, which lands on
the telemetry stub; the L-register case `0x0A` is unreachable from a
3-bit argument, and the flag-store runs before the ADD in any case. -/
theorem C2_flag_store_bug :
    GET_OPCODE 0xD80014 = 13 ∧ GET_FLAG 0xD80014 = 1 ∧
    GET_SECTOR 0xD80014 &&& 7 = 5 ∧ GET_FLAG_CODE 0xD80014 = 4 ∧
    (d17b_exec_arithmetic C2state 0xD80014).A = 5 ∧
    (d17b_exec_arithmetic C2state 0xD80014).L = 0 := by
  decide

/-! ## C4: SCL with a negative operand lane -/

def C4state : D17B :=
  { zeroState with memory := fun c s => if c = 0 ∧ s = 1 then 0xFFB000 else 0 }

/-- C4: executing SCL (instruction `0x100004`: opcode 1, channel 0,
sector 1) with A = 0 and operand high lane `0xFFB` (signed value −5)
produces A = `0x005000`: the 0 in A's high lane is replaced by +5 instead
of being kept, because the code limits against the signed operand lane
`o_hi = −5` (`if (a_hi > o_hi) a_hi = o_hi; if (a_hi < -o_hi) ...`) rather
than against its absolute value as the claim (and the source comment)
state. -/
theorem C4_scl_bug :
    sext12 ((0xFFB000 >>> 12) &&& 0xFFF) = -5 ∧
    (d17b_exec_control C4state 0x100004).A = 0x5000 := by
  decide

/-! ## C5: split multiply with a negative A -/

def C5state : D17B := { zeroState with A := 0x804000 }

def C5stateLowBit : D17B := { zeroState with A := 0x804001 }

/-- C5: split multiply of A = `0x804000` (sign bit set, bits 22..14 = 1,
so the claimed 10-bit lane value is −1) by operand `0x004000` (lane value
+1) yields L = 1023 instead of the claimed |−1·1| = 1, with
A = `0x800000`; moreover setting bit 0 of A (`0x804001`) changes the
result to L = 1022, so the product depends on bits of A below bit 14,
contradicting the split-lane extraction the claim describes. -/
theorem C5_smp_bug :
    to_signed 0x804000 = -16384 ∧
    (d17b_multiply C5state 0x4000 true).A = 0x800000 ∧
    (d17b_multiply C5state 0x4000 true).L = 1023 ∧
    (d17b_multiply C5stateLowBit 0x4000 true).L = 1022 := by
  decide

end D17BEmu

namespace D17BEmu

/-! ## C7: the opcode-2 jump (TZE in D37C mode, TMI in D17B mode) -/

set_option maxHeartbeats 1000000 in
set_option maxRecDepth 8192 in
/-- C7: a non-halted step whose fetched instruction has primary opcode 2
jumps to `(C, S)` exactly when, in D37C mode, the magnitude bits of A are
all zero (positive and negative zero both jump), and, in D17B mode, bit 23
of A is set; otherwise I is loaded from the next-sector pointer Sp with
the fetch channel unchanged. -/
theorem C7_op2_jump (s : D17B) (instr : Nat)
    (hh : s.halted = false)
    (hi : d17b_read s ((s.I >>> 9) &&& 0x3F) ((s.I >>> 2) &&& 0x7F) = instr)
    (hop : GET_OPCODE instr = 2) :
    (d17b_step s).I =
      if (s.d37c_mode = true ∧ s.A &&& MAGNITUDE_MASK = 0) ∨
         (s.d37c_mode = false ∧ s.A &&& SIGN_BIT ≠ 0) then
        (GET_CHANNEL instr <<< 9) ||| (GET_SECTOR instr <<< 2)
      else
        (((s.I >>> 9) &&& 0x3F) <<< 9) ||| (GET_SP instr <<< 2) := by
  simp only [d17b_step, hh, Bool.false_eq_true, if_false, hi, hop]
  by_cases hd : s.d37c_mode
  · by_cases hz : s.A &&& MAGNITUDE_MASK = 0
    · simp [hd, hz, apply_ite D17B.I]
    · simp [hd, hz, apply_ite D17B.I]
  · by_cases hs : s.A &&& SIGN_BIT = 0
    · simp [hd, hs, apply_ite D17B.I]
    · simp [hd, hs, apply_ite D17B.I]

def C7state : D17B :=
  { zeroState with
    A := 0x800000,
    memory := fun c s => if c = 0 ∧ s = 0 then (2 <<< 20) ||| (3 <<< 9) ||| (7 <<< 2) else 0 }

/-- C7 witness: in D37C mode with A = `0x800000` (negative zero), the
opcode-2 instruction with target channel 3, sector 7 jumps, so I becomes
`(3 << 9) | (7 << 2) = 1564`. -/
theorem C7_op2_jump_witness : (d17b_step C7state).I = 1564 := by
  have h := C7_op2_jump C7state ((2 <<< 20) ||| (3 <<< 9) ||| (7 <<< 2)) rfl (by decide) (by decide)
  exact h.trans (by decide)

end D17BEmu

namespace D17BEmu

/-! ## C10: HPR halts but completes the step -/

theorem and_127_eq_mod (x : Nat) : x &&& 127 = x % 128 := by
  have h := Nat.and_pow_two_sub_one_eq_mod x 7
  norm_num at h
  exact h

set_option maxHeartbeats 1000000 in
set_option maxRecDepth 8192 in
/-- C10: from a non-halted state, a step whose fetched instruction is HPR
(primary opcode 8, special sub-opcode 9) sets the halted latch and still
completes the step like any non-jumping instruction: I is loaded from the
next-sector pointer with the fetch channel unchanged, the disc position
advances by one modulo 128, the cycle counter increments by one, the fine
countdown decrements when enabled and positive, and every other state
field is unchanged. -/
theorem C10_hpr_frame (s : D17B) (instr : Nat)
    (hh : s.halted = false)
    (hi : d17b_read s ((s.I >>> 9) &&& 0x3F) ((s.I >>> 2) &&& 0x7F) = instr)
    (hop : GET_OPCODE instr = 8)
    (hsub : (GET_SECTOR instr >>> 1) &&& 0x3F = 9)
    (hcc : s.cycle_count + 1 < 18446744073709551616) :
    (d17b_step s).halted = true ∧
    (d17b_step s).I = (((s.I >>> 9) &&& 0x3F) <<< 9) ||| (GET_SP instr <<< 2) ∧
    (d17b_step s).current_sector = (s.current_sector + 1) % 128 ∧
    (d17b_step s).cycle_count = s.cycle_count + 1 ∧
    (d17b_step s).fine_countdown =
      (if s.countdown_enabled = true ∧ 0 < s.fine_countdown then s.fine_countdown - 1
       else s.fine_countdown) ∧
    (d17b_step s).A = s.A ∧ (d17b_step s).L = s.L ∧ (d17b_step s).N = s.N ∧
    (d17b_step s).P = s.P ∧ (d17b_step s).U = s.U ∧
    (d17b_step s).F = s.F ∧ (d17b_step s).E = s.E ∧ (d17b_step s).H = s.H ∧
    (d17b_step s).V = s.V ∧ (d17b_step s).R = s.R ∧
    (d17b_step s).memory = s.memory ∧
    (d17b_step s).error = s.error ∧
    (d17b_step s).d37c_mode = s.d37c_mode ∧
    (d17b_step s).discrete_in_a = s.discrete_in_a ∧
    (d17b_step s).discrete_in_b = s.discrete_in_b ∧
    (d17b_step s).discrete_out_a = s.discrete_out_a ∧
    (d17b_step s).voltage_out = s.voltage_out ∧
    (d17b_step s).binary_out = s.binary_out ∧
    (d17b_step s).detector = s.detector ∧
    (d17b_step s).countdown_enabled = s.countdown_enabled := by
  simp only [d17b_step, hh, Bool.false_eq_true, if_false, hi, hop]
  simp only [d17b_exec_special, hsub]
  norm_num
  by_cases hc : s.countdown_enabled = true ∧ 0 < s.fine_countdown
  · simp [hc, and_127_eq_mod, Nat.mod_eq_of_lt hcc]
  · simp [hc, and_127_eq_mod, Nat.mod_eq_of_lt hcc]

def C10state : D17B :=
  { zeroState with
    countdown_enabled := true,
    fine_countdown := 3,
    memory := fun c s => if c = 0 ∧ s = 0 then (8 <<< 20) ||| (5 <<< 15) ||| (18 <<< 2) else 0 }

/-- C10 witness: executing HPR (instruction with opcode 8, Sp = 5,
sector 18 so sub-opcode 9) from an enabled countdown of 3 halts the CPU,
sets I to `5 << 2 = 20`, advances the disc position and cycle count to 1,
and decrements the countdown to 2. -/
theorem C10_hpr_frame_witness :
    (d17b_step C10state).halted = true ∧ (d17b_step C10state).I = 20 ∧
    (d17b_step C10state).current_sector = 1 ∧ (d17b_step C10state).cycle_count = 1 ∧
    (d17b_step C10state).fine_countdown = 2 := by
  have h := C10_hpr_frame C10state ((8 <<< 20) ||| (5 <<< 15) ||| (18 <<< 2)) rfl (by decide)
    (by decide) (by decide) (by decide)
  exact ⟨h.1, h.2.1.trans (by decide), h.2.2.1.trans (by decide),
    h.2.2.2.1.trans (by decide), h.2.2.2.2.1.trans (by decide)⟩

end D17BEmu

namespace D17BEmu

/-! ## C3: the run loop -/

def C3state : D17B :=
  { zeroState with memory := fun c s => if c = 0 ∧ s = 0 then 0x700004 else 0 }

/-- C3 counterexample: the program whose only instruction (at channel 0,
sector 0, with Sp = 0 so it loops on itself) is DIV with a zero-magnitude
operand latches the error on the very first step, yet `d17b_run` with
budget 2 still executes a second instruction: the cycle count reaches 2.
The run loop does not test the error latch. -/
theorem C3_counterexample :
    (d17b_step C3state).error = true ∧
    (d17b_run C3state 2).cycle_count = 2 ∧
    (d17b_run C3state 2).error = true ∧
    (d17b_run C3state 2).halted = false := by decide

/-- C3 (amended): `d17b_run` steps repeatedly and stops as soon as the
halted latch is set or the caller-supplied cycle budget is exhausted; the
error latch does not stop the loop.  Concretely: if no state reached
within the budget is halted, the run performs exactly `n` steps (whatever
the error latch does); and if the first halted state appears after `k ≤ n`
steps, the run stops there. -/
theorem C3_run_amended (s : D17B) (n : Nat) :
    ((∀ k, k < n → (d17b_step^[k] s).halted = false) → d17b_run s n = d17b_step^[n] s) ∧
    (∀ k, k ≤ n → (∀ j, j < k → (d17b_step^[j] s).halted = false) →
      (d17b_step^[k] s).halted = true → d17b_run s n = d17b_step^[k] s) := by
  induction n generalizing s with
  | zero =>
    constructor
    · intro _; rfl
    · intro k hk _ _
      have hk0 : k = 0 := Nat.le_zero.mp hk
      subst hk0; rfl
  | succ m ih =>
    constructor
    · intro h
      have hs : s.halted = false := by simpa using h 0 (Nat.succ_pos m)
      have hrun : d17b_run s (m + 1) = d17b_run (d17b_step s) m := by
        simp only [d17b_run, hs, Bool.false_eq_true, if_false]
      rw [hrun]
      have h2 : ∀ k, k < m → (d17b_step^[k] (d17b_step s)).halted = false := by
        intro k hk
        have h3 := h (k + 1) (by omega)
        rwa [Function.iterate_succ_apply] at h3
      rw [(ih (d17b_step s)).1 h2, ← Function.iterate_succ_apply]
    · intro k hk hprev hhalt
      cases k with
      | zero =>
        simp only [Function.iterate_zero_apply] at hhalt
        simp only [Function.iterate_zero_apply, d17b_run, hhalt, if_true]
      | succ j =>
        have hs : s.halted = false := by simpa using hprev 0 (Nat.succ_pos j)
        have hrun : d17b_run s (m + 1) = d17b_run (d17b_step s) m := by
          simp only [d17b_run, hs, Bool.false_eq_true, if_false]
        rw [hrun]
        have hj : j ≤ m := by omega
        have hprev' : ∀ i, i < j → (d17b_step^[i] (d17b_step s)).halted = false := by
          intro i hi
          have h3 := hprev (i + 1) (by omega)
          rwa [Function.iterate_succ_apply] at h3
        have hhalt' : (d17b_step^[j] (d17b_step s)).halted = true := by
          rwa [Function.iterate_succ_apply] at hhalt
        rw [(ih (d17b_step s)).2 j hj hprev' hhalt', ← Function.iterate_succ_apply]

/-- C3 witness: on the divide-by-zero self-loop program neither of the
first two states is halted, so a run with budget 2 performs exactly two
steps even though the error latch is set after the first. -/
theorem C3_run_amended_witness :
    d17b_run C3state 2 = d17b_step^[2] C3state :=
  (C3_run_amended C3state 2).1 (by decide)

end D17BEmu
